import Mathlib

/-!
Verification of the ZScribe intake-agent call orchestration core.

This file gives a shallow embedding, in Lean, of the per-call logic of the
repository: metadata parsing and identity validation (`entrypoint` in
`src/calling_agent.py`), parallel enrichment with per-lookup failure
isolation, instruction compilation with its static fallback
(`src/prompts.py`), the greeting stage (`IntakeAgent.on_enter`), the
shutdown/persistence/span-close stage (`save_transcript`), and the dispatch
trigger (`make_call` in `src/make_call.py`, `schedule_intake_call` in
`src/intake_api.py`).

Python dynamic values are embedded as a `Json` inductive; Python truthiness
as `jsonTruthy`; `dict.get` as `pyGetD`/`pyGet`; exceptions as
`Except PyErr`. External effects (database lookups, the random choice of a
greeting, observability configuration, failure of each fragile step) are
parameters gathered in environment structures, and the observable actions of
a run are recorded as a list of `Event`s.
-/

namespace ZScribe

/-- Embedding of a Python/JSON dynamic value.  Python `None` is `Json.null`;
`bytes` payloads are handled separately in `MetadataPayload`. -/
inductive Json where
  | null
  | bool (b : Bool)
  | num (n : Int)
  | str (s : String)
  | arr (elems : List Json)
  | obj (fields : List (String × Json))
deriving Repr

/-- A Python dict with string keys, as used for all JSON objects here. -/
abbrev PyDict := List (String × Json)

/-- The Python exception kinds raised by the embedded code.  `valueError` is
what the spec calls a ValidationError (the code raises `ValueError`);
`attributeError` models calling `.get` on a non-dict; `typeError` models a
call with an unexpected keyword argument or iterating a non-list;
`runtimeError` models the `RuntimeError` for a bad SIP trunk id;
`transportError` stands for an exception out of an external API call. -/
inductive PyErr where
  | valueError
  | attributeError
  | typeError
  | runtimeError
  | transportError
deriving Repr, DecidableEq

/-- Python truthiness of an embedded value (`if value:`). -/
def jsonTruthy : Json → Bool
  | .null => false
  | .bool b => b
  | .num n => n != 0
  | .str s => s != ""
  | .arr elems => !elems.isEmpty
  | .obj fields => !fields.isEmpty

/-- Python `d.get(key, deflt)`: the value stored under `key`, or `deflt`
when the key is absent. -/
def pyGetD : PyDict → String → Json → Json
  | [], _, deflt => deflt
  | (k, v) :: rest, key, deflt => if key = k then v else pyGetD rest key deflt

/-- Python `d.get(key)`: absent keys give `None`. -/
def pyGet (fields : PyDict) (key : String) : Json :=
  pyGetD fields key .null

-- ------------------------------------------------------------------ --
-- Constants of src/calling_agent.py
-- ------------------------------------------------------------------ --

def AGENT_NAME : String := "ZScribe Intake Coordinator"

def DEFAULT_PATIENT_NAME : String := "there"

def DEFAULT_ORGANIZATION_NAME : String := "our office"

def GREETING_VARIATIONS : List String :=
  [ "Hello {patient}, this is {agent} calling from {organization}. Is this a good time to talk for a few minutes?"
  , "Hi {patient}, {agent} from {organization}. Do you have a moment so we can prepare for your upcoming appointment?"
  , "Good day {patient}! You're speaking with {agent} at {organization}. May I confirm it's a convenient time to go through a few intake questions?"
  , "Hello {patient}, you're speaking with {agent} representing {organization}. Is it okay if we continue with your intake call now?" ]

-- ------------------------------------------------------------------ --
-- Metadata parsing (entrypoint, src/calling_agent.py lines 201-240)
-- ------------------------------------------------------------------ --

/-- The shape of `getattr(ctx.job, "metadata", None)` as the entrypoint
dispatches on it.  `absent` covers a missing or falsy payload (`None`, empty
string, empty bytes, empty dict: `if metadata_payload:` fails).
`bytesUndecodable` is a bytes payload whose `.decode("utf-8")` raises
(caught by the surrounding `except`).  Bytes that decode successfully take
the string branch, so they are represented by `strPayload` of the decoded
text; there `parse` is the result of `json.loads` on the stripped string
(`none` when `json.loads` raises).  `dictPayload` is an already-structured
mapping, and `other` any other truthy object (logged, not parsed). -/
inductive MetadataPayload where
  | absent
  | bytesUndecodable
  | strPayload (s : String) (parse : Option Json)
  | dictPayload (fields : PyDict)
  | other

/-- ASCII whitespace, for the embedding of `str.strip()`. -/
def isSpaceChar (c : Char) : Bool :=
  c = ' ' || c = '\t' || c = '\n' || c = '\r'

/-- Python `s.strip()`: leading and trailing whitespace removed. -/
def pyStrip (s : String) : String :=
  String.mk (((s.toList.dropWhile isSpaceChar).reverse.dropWhile isSpaceChar).reverse)

/-- `if metadata_payload:` — truthiness of the raw payload. -/
def payloadTruthy : MetadataPayload → Bool
  | .absent => false
  | .bytesUndecodable => true
  | .strPayload s _ => s != ""
  | .dictPayload fields => !fields.isEmpty
  | .other => true

/-- The `parsed_metadata` variable after the parse block: every exception
inside the `try` is caught, so the block totalises to an optional value. -/
def parseStage : MetadataPayload → Option Json
  | .absent => none
  | .bytesUndecodable => none
  | .strPayload s parse => if s ≠ "" then (if pyStrip s = "" then none else parse) else none
  | .dictPayload fields => if fields.isEmpty then none else some (.obj fields)
  | .other => none

/-- The id-extraction block: `if parsed_metadata:` then four `.get` calls.
On a truthy non-dict parse result, `.get` raises `AttributeError`, which no
handler in `entrypoint` catches. -/
def extractIds : Option Json → Except PyErr (Json × Json × Json × Json)
  | none => .ok (.null, .null, .null, .null)
  | some j =>
      if jsonTruthy j then
        match j with
        | .obj fields =>
            .ok (pyGet fields "template_id", pyGet fields "organization_id",
                 pyGet fields "patient_id", pyGet fields "intake_id")
        | _ => .error .attributeError
      else
        .ok (.null, .null, .null, .null)

/-- The validated call context (spec §3 CallContext). -/
structure CallContext where
  template_id : Json
  organization_id : Json
  patient_id : Json
  intake_id : Json
deriving Repr

/-- The whole metadata stage: parse, extract, then
`if not template_id or not organization_id or not patient_id: raise ValueError`. -/
def metadataStage (payload : MetadataPayload) : Except PyErr CallContext :=
  match extractIds (parseStage payload) with
  | .error e => .error e
  | .ok (t, o, p, i) =>
      if jsonTruthy t && jsonTruthy o && jsonTruthy p then
        .ok ⟨t, o, p, i⟩
      else
        .error .valueError

/-- The parse result is a mapping, falsy, or missing: the payloads on which
the extraction block cannot hit its `.get`-on-non-dict hole. -/
def parseSafe (payload : MetadataPayload) : Bool :=
  match parseStage payload with
  | none => true
  | some (.obj _) => true
  | some j => !jsonTruthy j

/-- The required identity ids, as extracted, are all truthy. -/
def extractedRequiredPresent (payload : MetadataPayload) : Bool :=
  match extractIds (parseStage payload) with
  | .ok (t, o, p, _) => jsonTruthy t && jsonTruthy o && jsonTruthy p
  | .error _ => false

/-- Extraction succeeded but a required identity id is missing or falsy:
exactly the situation the code answers with `raise ValueError`. -/
def requiredIdsMissing (payload : MetadataPayload) : Bool :=
  match extractIds (parseStage payload) with
  | .ok (t, o, p, _) => !(jsonTruthy t && jsonTruthy o && jsonTruthy p)
  | .error _ => false

-- ------------------------------------------------------------------ --
-- Enrichment (entrypoint, src/calling_agent.py lines 242-277)
-- ------------------------------------------------------------------ --

/-- One result slot of `asyncio.gather(fetch_patient(...),
fetch_organization(...), return_exceptions=True)`: either a captured
exception or the fetch's return value (a dict, or `None` for not-found /
swallowed errors, matching `Optional[Dict]` in `src/db_utils.py`). -/
inductive LookupOutcome where
  | exc
  | result (profile : Option PyDict)

/-- The `patient_profile` / `organization_profile` variable after the
`isinstance(result, Exception)` check: an exception is replaced by `None`. -/
def profileVar : LookupOutcome → Option PyDict
  | .exc => none
  | .result v => v

/-- `profile.get(key) if profile and profile.get(key) else default`,
exactly the shape of the two name-extraction blocks: the profile must be
truthy (non-`None`, non-empty) and the looked-up field truthy. -/
def displayName (profile : Option PyDict) (key deflt : String) : Json :=
  match profile with
  | some fields =>
      if !fields.isEmpty && jsonTruthy (pyGet fields key) then pyGet fields key
      else .str deflt
  | none => .str deflt

/-- The enrichment stage: `(patient_name, organization_name)` from the two
gathered lookup outcomes. -/
def enrichmentNames (patientResult orgResult : LookupOutcome) : Json × Json :=
  (displayName (profileVar patientResult) "full_name" DEFAULT_PATIENT_NAME,
   displayName (profileVar orgResult) "name" DEFAULT_ORGANIZATION_NAME)

-- ------------------------------------------------------------------ --
-- Greeting formatting (random.choice + str.format)
-- ------------------------------------------------------------------ --

/-- Python `str(value)` as used when a value is interpolated into a format
string.  The container renderings are abstracted (only strings reach the
format calls in this program). -/
def pyStr : Json → String
  | .null => "None"
  | .bool true => "True"
  | .bool false => "False"
  | .num n => toString n
  | .str s => s
  | .arr _ => "[...]"
  | .obj _ => "dict"

/-- Single-pass substitution of the three named fields of a greeting
template, as `str.format(agent=..., patient=..., organization=...)`
performs it. -/
def substPlaceholders (agent patient organization : List Char) : List Char → List Char
  | '{' :: 'a' :: 'g' :: 'e' :: 'n' :: 't' :: '}' :: rest =>
      agent ++ substPlaceholders agent patient organization rest
  | '{' :: 'p' :: 'a' :: 't' :: 'i' :: 'e' :: 'n' :: 't' :: '}' :: rest =>
      patient ++ substPlaceholders agent patient organization rest
  | '{' :: 'o' :: 'r' :: 'g' :: 'a' :: 'n' :: 'i' :: 'z' :: 'a' :: 't' :: 'i' :: 'o' :: 'n' :: '}' :: rest =>
      organization ++ substPlaceholders agent patient organization rest
  | c :: rest => c :: substPlaceholders agent patient organization rest
  | [] => []

/-- `template.format(agent=..., patient=..., organization=...)`. -/
def formatGreeting (template : String) (agent patient organization : Json) : String :=
  String.mk (substPlaceholders (pyStr agent).toList (pyStr patient).toList
    (pyStr organization).toList template.toList)

/-- `random.choice(GREETING_VARIATIONS)`, the chosen index made explicit. -/
def greetingAt (i : Fin 4) : String :=
  GREETING_VARIATIONS.get (i.cast (show (4 : Nat) = GREETING_VARIATIONS.length from rfl))

-- ------------------------------------------------------------------ --
-- Instruction compilation (src/prompts.py)
-- ------------------------------------------------------------------ --

/-- The static fallback script of `get_fallback_instructions`, verbatim. -/
def getFallbackInstructions : String :=
  "You are a medical intake agent. Collect patient information professionally.\n\nStart with a greeting, ask if it's a good time to talk, then ask about:\n1. Chief complaint\n2. Symptoms\n3. Medical history\n4. Medications\n5. Allergies\n\nAsk questions one by one and be conversational."

/-- `d.get(key, deflt) if d else deflt` (the guarded lookups on
`patient_data`, `organization_data` and `appointment_details`). -/
def optDictGetD (d : Option PyDict) (key : String) (deflt : Json) : Json :=
  match d with
  | some fields => if fields.isEmpty then deflt else pyGetD fields key deflt
  | none => deflt

/-- The numbered question lines built by the `for i, question in
enumerate(questions, 1)` loop.  A non-dict question makes
`question.get('text', ...)` raise `AttributeError`. -/
def questionLinesE (i : Nat) : List Json → Except PyErr String
  | [] => .ok ""
  | q :: rest =>
      match q with
      | .obj fields =>
          (questionLinesE (i + 1) rest).map
            (fun tail => toString i ++ ". " ++
              pyStr (pyGetD fields "text" (.str "Question not available")) ++ "\n" ++ tail)
      | _ => .error .attributeError

/-- The first f-string of `generate_instructions_from_api`, verbatim up to
the interpolated values. -/
def instructionsHeader (patient_name organization_name appointment_type provider_name appointment_datetime template_name instructions_for_ai : Json) : String :=
  "You are a professional medical intake agent calling " ++ pyStr patient_name ++
  " to collect their medical information before their appointment.\n\nCONVERSATION FLOW - Follow this EXACT sequence:\n\n1. GREETING & INTRODUCTION:\n   - Start with: \"Hello, this is Sarah calling from " ++
  pyStr organization_name ++
  ".\"\n   - Explain: \"I'm calling to collect some information for your upcoming " ++
  pyStr appointment_type ++ " with " ++ pyStr provider_name ++ " on " ++
  pyStr appointment_datetime ++
  ".\"\n   - Ask: \"Is this a good time to talk for a few minutes?\"\n   - WAIT for their response before proceeding\n\n2. INFORMATION COLLECTION:\n   - Only after they confirm it's a good time, say: \"Great! Let me ask you a few questions to help prepare for your appointment.\"\n   - Ask the questions ONE BY ONE from the list below\n   - WAIT for each answer before moving to the next question\n   - Be conversational and show empathy\n   - Use their name (" ++
  pyStr patient_name ++
  ") naturally in conversation\n\n3. CLOSING:\n   - After all questions: \"Thank you, " ++
  pyStr patient_name ++
  ", for providing this information.\"\n   - Confirm: \"This will help make your appointment with " ++
  pyStr provider_name ++
  " go smoothly.\"\n   - End: \"Is there anything else you'd like to mention or any questions you have?\"\n\nTEMPLATE: " ++
  pyStr template_name ++ "\nAI INSTRUCTIONS: " ++ pyStr instructions_for_ai ++
  "\n\nSPECIFIC QUESTIONS TO ASK (ask these ONE BY ONE, in order):\n"

/-- The trailing f-string of `generate_instructions_from_api`, verbatim up
to the interpolated values. -/
def criticalRules (patient_name provider_name appointment_datetime organization_name : Json) : String :=
  "\nCRITICAL RULES:\n- Ask questions ONE BY ONE, not all at once\n- Wait for each answer before asking the next question\n- Be patient and understanding\n- Use " ++
  pyStr patient_name ++
  "'s name naturally in conversation\n- Never provide medical advice\n- If they ask medical questions, redirect to " ++
  pyStr provider_name ++
  "\n- Use natural conversation flow\n- Show empathy and make them comfortable\n- Reference their appointment on " ++
  pyStr appointment_datetime ++
  " when relevant\n\nRemember: This is a conversation, not an interrogation. Be warm and professional while representing " ++
  pyStr organization_name ++ ".\n"

/-- `generate_instructions_from_api`, with the results of its three data
fetches (all failure-swallowing, returning `Optional[Dict]`) passed in as
parameters.  `if not template_data:` returns the fallback; otherwise the
script is assembled from the template record.  A non-list `questions` value
or a non-dict question raises (modelled as the corresponding error). -/
def generateInstructionsFromApi (templateData patientData organizationData appointmentDetails : Option PyDict) : Except PyErr String :=
  match templateData with
  | none => .ok getFallbackInstructions
  | some fields =>
      if fields.isEmpty then .ok getFallbackInstructions
      else
        let template_name := pyGetD fields "template_name" (.str "Intake Form")
        let instructions_for_ai := pyGetD fields "instructions_for_ai" (.str "Follow standard medical intake protocol.")
        let questions := pyGetD fields "questions" (.arr [])
        let patient_name := optDictGetD patientData "full_name" (.str "the patient")
        let organization_name := optDictGetD organizationData "name" (.str "your medical office")
        let appointment_datetime := optDictGetD appointmentDetails "appointment_datetime" (.str "your upcoming appointment")
        let provider_name := optDictGetD appointmentDetails "provider_name" (.str "your doctor")
        let appointment_type := optDictGetD appointmentDetails "appointment_type" (.str "appointment")
        match questions with
        | .arr qs =>
            (questionLinesE 1 qs).map (fun qlines =>
              instructionsHeader patient_name organization_name appointment_type provider_name appointment_datetime template_name instructions_for_ai ++
              qlines ++
              criticalRules patient_name provider_name appointment_datetime organization_name)
        | _ => .error .typeError

/-- The formal parameter names of `generate_instructions_from_api`
(`src/prompts.py` line 7): there is no `**kwargs`, so a keyword argument
outside this list raises `TypeError` before the body runs. -/
def generateInstructionsParams : List String :=
  ["template_id", "organization_id", "patient_id", "appointment_details"]

/-- A keyword-argument call of `generate_instructions_from_api`: Python
checks every keyword against the formal parameter list and raises
`TypeError` on an unexpected one, otherwise the body runs (its internal
fetch results are the `Option PyDict` parameters). -/
def callGenerateInstructionsKw (kwargs : List (String × Json)) (templateData patientData organizationData appointmentDetails : Option PyDict) : Except PyErr String :=
  if kwargs.all (fun kv => generateInstructionsParams.contains kv.1) then
    generateInstructionsFromApi templateData patientData organizationData appointmentDetails
  else
    .error .typeError

/-- `instructions if instructions else get_fallback_instructions()` in
`IntakeAgent.__init__`: `None` or an empty string falls back. -/
def finalInstructions : Option String → String
  | some s => if s = "" then getFallbackInstructions else s
  | none => getFallbackInstructions

/-- Python `a or b` on embedded values (the `patient_name or
DEFAULT_PATIENT_NAME` defaults in `IntakeAgent.__init__`). -/
def pyOr (a b : Json) : Json :=
  if jsonTruthy a then a else b

-- ------------------------------------------------------------------ --
-- Observable actions of a call session
-- ------------------------------------------------------------------ --

/-- The externally observable actions of one session run, in program
order: the two enrichment fetches, the tracing-span open, the voice-channel
start (carrying the instructions handed to the conversational engine), the
pre-speech pause (in milliseconds; the source sleeps `0.5` seconds), the
spoken greeting, the transcript write to the record store, the
skip-persistence warning, the trace update and the span end-and-flush. -/
inductive Event where
  | fetchPatient (id : Json)
  | fetchOrganization (id : Json)
  | spanOpen
  | sessionStart (instructions : String)
  | sleep (ms : Nat)
  | say (text : String)
  | dbWrite (intakeId : Json)
  | warnSkipPersist
  | traceUpdate
  | spanClose
deriving Repr

def isDbWrite : Event → Bool
  | .dbWrite _ => true
  | _ => false

def isSpanClose : Event → Bool
  | .spanClose => true
  | _ => false

def isWarnSkipPersist : Event → Bool
  | .warnSkipPersist => true
  | _ => false

def isSay : Event → Bool
  | .say _ => true
  | _ => false

-- ------------------------------------------------------------------ --
-- Shutdown stage (save_transcript, src/calling_agent.py lines 380-448)
-- ------------------------------------------------------------------ --

/-- Where the fragile steps of `save_transcript` fail.  `historyOk`:
`session.history.to_dict()` returned (a raise jumps to the outer `except`).
`dbRaises` / `dbReturns`: whether `save_transcript_to_db` raised (caught by
its own inner `except`) and, if not, its boolean result — both only change
what is logged.  `flattenOk`: the transcript-flattening loop completed (a
raise there jumps to the outer `except`).  `traceUpdateOk` and `spanEndOk`:
whether `span.update_trace` and `span.end()`/`langfuse.flush()` raised —
each is caught by its own local handler and only changes what is logged. -/
structure ShutdownEnv where
  historyOk : Bool
  dbRaises : Bool
  dbReturns : Bool
  flattenOk : Bool
  traceUpdateOk : Bool
  spanEndOk : Bool

/-- One run of the `save_transcript` shutdown callback.  `spanOpened` is
`span is not None` (which implies `langfuse is not None`, since the span is
only created from a configured client, so `if span and langfuse:` reduces
to it).  The try body persists (or warns), flattens, and updates the trace;
the outer `except` swallows any escape; the `finally` closes the span.  The
whole callback can never raise, hence the second component is `none`. -/
def saveTranscriptRun (spanOpened : Bool) (env : ShutdownEnv) (intakeId : Json) : List Event × Option PyErr :=
  let tryEvents : List Event :=
    if env.historyOk then
      let persistEvents :=
        if jsonTruthy intakeId then [Event.dbWrite intakeId] else [Event.warnSkipPersist]
      if env.flattenOk then
        persistEvents ++ (if spanOpened then [Event.traceUpdate] else [])
      else
        persistEvents
    else
      []
  let finallyEvents := if spanOpened then [Event.spanClose] else []
  (tryEvents ++ finallyEvents, none)

-- ------------------------------------------------------------------ --
-- The whole entrypoint (src/calling_agent.py)
-- ------------------------------------------------------------------ --

/-- The external world one session runs against: the two enrichment lookup
outcomes, the two `random.choice` draws, whether a Langfuse client is
configured and whether `start_span` succeeded, the data the instruction
compiler's fetches would return, and the shutdown stage's failure points. -/
structure Env where
  patientOutcome : LookupOutcome
  orgOutcome : LookupOutcome
  stageOneChoice : Fin 4
  enterChoice : Fin 4
  langfuseOk : Bool
  spanStartOk : Bool
  templateData : Option PyDict
  patientData : Option PyDict
  organizationData : Option PyDict
  shutdown : ShutdownEnv

/-- `IntakeAgent.on_enter`: a 0.5 s pause (`asyncio.sleep(0.5)`, recorded
in milliseconds), then the formatted greeting is spoken. -/
def onEnterEvents (choice : Fin 4) (agentName patientName organizationName : Json) : List Event :=
  [Event.sleep 500,
   Event.say (formatGreeting (greetingAt choice) agentName patientName organizationName)]

/-- One run of `entrypoint`, as the list of observable events up to and
including the shutdown callback, with the uncaught exception if one aborts
the session.  The metadata stage runs first and its `ValueError` /
`AttributeError` aborts before any fetch; then enrichment, the Stage-1
instruction call (whose `prefilled_greeting=` keyword is not a parameter of
`generate_instructions_from_api`, so Python rejects the call before the
body — and before any template fetch — runs; the `except` keeps
`instructions = None`), the span open, the session start with
`IntakeAgent`'s defaulted names and instructions, `on_enter`, and finally
the registered shutdown callback. -/
def entrypointRun (env : Env) (payload : MetadataPayload) : List Event × Option PyErr :=
  match metadataStage payload with
  | .error e => ([], some e)
  | .ok ctx =>
      let fetchEvents := [Event.fetchPatient ctx.patient_id, Event.fetchOrganization ctx.organization_id]
      let names := enrichmentNames env.patientOutcome env.orgOutcome
      let tempGreeting := formatGreeting (greetingAt env.stageOneChoice) (.str AGENT_NAME) names.1 names.2
      let stage1 := callGenerateInstructionsKw
        [("template_id", ctx.template_id), ("organization_id", ctx.organization_id),
         ("patient_id", ctx.patient_id), ("prefilled_greeting", .str tempGreeting)]
        env.templateData env.patientData env.organizationData none
      let instructions : Option String := match stage1 with | .ok s => some s | .error _ => none
      let spanOpened := env.langfuseOk && env.spanStartOk
      let spanEvents := if spanOpened then [Event.spanOpen] else []
      let agentAgent := pyOr .null (.str AGENT_NAME)
      let agentPatient := pyOr names.1 (.str DEFAULT_PATIENT_NAME)
      let agentOrganization := pyOr names.2 (.str DEFAULT_ORGANIZATION_NAME)
      let sessionEvents := Event.sessionStart (finalInstructions instructions) ::
        onEnterEvents env.enterChoice agentAgent agentPatient agentOrganization
      let shutdownRun := saveTranscriptRun spanOpened env.shutdown ctx.intake_id
      (fetchEvents ++ spanEvents ++ sessionEvents ++ shutdownRun.1, shutdownRun.2)

-- ------------------------------------------------------------------ --
-- Dispatch trigger (src/make_call.py, src/intake_api.py)
-- ------------------------------------------------------------------ --

/-- The collaborators `make_call` touches: the organization's caller-id
phone (`None` on missing row, missing field, or swallowed error), the
outcome of `create_dispatch` (raise, or a dispatch whose `id` attribute is
read with `getattr(..., None)`), the `SIP_OUTBOUND_TRUNK_ID` environment
variable, the outcome of `create_sip_participant`, and the generated room
suffix (`str(uuid.uuid4())[:8]`). -/
structure DispatchEnv where
  orgPhone : Option String
  dispatchOutcome : Except Unit (Option String)
  trunkId : Option String
  sipOutcome : Except Unit Unit
  sessionId : String

/-- `s.startswith("ST_")`. -/
def startsWithST (s : String) : Bool :=
  match s.toList with
  | 'S' :: 'T' :: '_' :: _ => true
  | _ => false

/-- `if not outbound_trunk_id or not outbound_trunk_id.startswith("ST_")`. -/
def trunkInvalid (trunkId : Option String) : Bool :=
  match trunkId with
  | none => true
  | some s => s = "" || !startsWithST s

/-- The metadata payload `make_call` serialises into the dispatch:
`prefilled_greeting` only enters when truthy. -/
def makeCallMetadata (intake template organization patient phone : String) (prefilled : Option String) : PyDict :=
  let base : PyDict :=
    [("intake_id", .str intake), ("template_id", .str template),
     ("organization_id", .str organization), ("patient_id", .str patient),
     ("phone_number", .str phone)]
  match prefilled with
  | some g => if g = "" then base else base ++ [("prefilled_greeting", .str g)]
  | none => base

/-- The dict `make_call` returns on success. -/
structure MakeCallResult where
  room_name : String
  dispatch_id : Option String
  metadata : PyDict
  agent_name : String
deriving Repr

/-- `make_call`: missing organization phone raises `ValueError`; the
dispatch is created (a raise propagates — there is no handler); an unset or
malformed trunk id raises `RuntimeError`; the SIP-participant creation is
wrapped in `try/except` that only logs, so its failure does not stop the
function; the result dict is returned. -/
def make_call (env : DispatchEnv) (phone template organization patient intake : String) (prefilled : Option String) : Except PyErr MakeCallResult :=
  match env.orgPhone with
  | none => .error .valueError
  | some orgPhone =>
    if orgPhone = "" then .error .valueError
    else
      let room_name := "intake-" ++ env.sessionId
      let metadata := makeCallMetadata intake template organization patient phone prefilled
      match env.dispatchOutcome with
      | .error _ => .error .transportError
      | .ok dispatch_id =>
          if trunkInvalid env.trunkId then .error .runtimeError
          else
            match env.sipOutcome with
            | .ok _ => .ok ⟨room_name, dispatch_id, metadata, "intake-agent"⟩
            | .error _ => .ok ⟨room_name, dispatch_id, metadata, "intake-agent"⟩

/-- The trigger API's response: 202 Accepted with the dispatch info, or the
`HTTPException` with status 502 raised by the handler's `except`. -/
inductive ApiResponse where
  | accepted (status room_name : String) (dispatch_id : Option String) (metadata : PyDict) (agent_name : String)
  | gatewayError (code : Nat)
deriving Repr

/-- `schedule_intake_call` in `src/intake_api.py`: any exception out of
`make_call` maps to a 502 gateway error, success to a 202 response carrying
the dispatch info. -/
def schedule_intake_call (env : DispatchEnv) (phone template organization patient intake : String) (greeting_override : Option String) : ApiResponse :=
  match make_call env phone template organization patient intake greeting_override with
  | .error _ => .gatewayError 502
  | .ok r => .accepted "queued" r.room_name r.dispatch_id r.metadata r.agent_name

/-- `if not org_phone_number:` — the caller-id lookup yielded nothing. -/
def orgPhoneMissing (phone : Option String) : Bool :=
  match phone with
  | none => true
  | some s => s = ""

/-- Any of the three raising steps of `make_call` failed. -/
def makeCallFails (env : DispatchEnv) : Bool :=
  orgPhoneMissing env.orgPhone ||
    (match env.dispatchOutcome with | .error _ => true | .ok _ => false) ||
    trunkInvalid env.trunkId

/-- The dispatch id of a successful `create_dispatch`, `none` otherwise. -/
def dispatchIdOf (env : DispatchEnv) : Option String :=
  match env.dispatchOutcome with
  | .ok i => i
  | .error _ => none

-- ------------------------------------------------------------------ --
-- Sample inputs for concrete instantiations
-- ------------------------------------------------------------------ --

/-- A shutdown environment in which every fragile step succeeds. -/
def sampleShutdownEnv : ShutdownEnv :=
  ⟨true, false, true, true, true, true⟩

/-- A session environment: both enrichment lookups fail, tracing is not
configured, the template store returns nothing. -/
def sampleEnv : Env :=
  ⟨.exc, .exc, 0, 0, false, false, none, none, none, sampleShutdownEnv⟩

/-- A structured metadata payload carrying all four ids. -/
def samplePayloadFull : MetadataPayload :=
  .dictPayload [("template_id", .str "t1"), ("organization_id", .str "o1"),
    ("patient_id", .str "p1"), ("intake_id", .str "i1")]

/-- The greeting the sample session speaks: first template, both names
defaulted because both lookups failed. -/
def sampleGreeting : String :=
  formatGreeting (greetingAt 0) (pyOr .null (.str AGENT_NAME))
    (pyOr (enrichmentNames .exc .exc).1 (.str DEFAULT_PATIENT_NAME))
    (pyOr (enrichmentNames .exc .exc).2 (.str DEFAULT_ORGANIZATION_NAME))

-- ------------------------------------------------------------------ --
-- Theorems for the claims
-- ------------------------------------------------------------------ --

/-- The Stage-1 call of `generate_instructions_from_api` always carries the
`prefilled_greeting=` keyword, which is not among the function's formal
parameters: Python rejects the call with `TypeError` before the body runs,
whatever the argument values and whatever the fetches would return. -/
lemma callGenerateInstructionsKw_prefilled (t o p : Json) (g : String)
    (td pd od ad : Option PyDict) :
    callGenerateInstructionsKw
        [("template_id", t), ("organization_id", o), ("patient_id", p),
         ("prefilled_greeting", .str g)] td pd od ad = .error .typeError := by
  simp [callGenerateInstructionsKw, generateInstructionsParams]

/-- C2: in the Shutdown stage, when a TracingSpan was opened during
DispatchFetch (`spanOpened = true`), the span end-and-flush is the last
action of the `save_transcript` callback and occurs exactly once — for
every combination of failures of the callback's steps, including the
transcript-persistence step throwing (`historyOk = false`, `flattenOk =
false`, `dbRaises = true`); since it is last and unique, the
transcript-persistence step always completes (with success or a logged
failure) before it, and the callback itself never raises. -/
theorem shutdown_closes_open_span_exactly_once_after_persistence
    (env : ShutdownEnv) (intakeId : Json) :
    (saveTranscriptRun true env intakeId).1.countP isSpanClose = 1
    ∧ (saveTranscriptRun true env intakeId).1.getLast? = some Event.spanClose
    ∧ (saveTranscriptRun true env intakeId).2 = none := by
  simp only [saveTranscriptRun]
  split_ifs <;> simp [isSpanClose]

/-- Extraction never raises when the parse result is a mapping, falsy or
missing. -/
lemma extractIds_ok_of_not_truthy_nondict (m : Option Json)
    (hm : ∀ j, m = some j → (∃ f, j = Json.obj f) ∨ jsonTruthy j = false) :
    ∃ r, extractIds m = Except.ok r := by
  cases m with
  | none => exact ⟨_, rfl⟩
  | some j =>
      rcases hm j rfl with ⟨f, rfl⟩ | hfalse
      · unfold extractIds
        by_cases ht : jsonTruthy (Json.obj f) <;> simp [ht]
      · unfold extractIds
        simp [hfalse]

/-- Reading `parseSafe` as a statement about the parsed value. -/
lemma parseSafe_spec (payload : MetadataPayload) (h : parseSafe payload = true) :
    ∀ j, parseStage payload = some j → (∃ f, j = Json.obj f) ∨ jsonTruthy j = false := by
  intro j hj
  unfold parseSafe at h
  rw [hj] at h
  cases j with
  | obj f => exact Or.inl ⟨f, rfl⟩
  | null => exact Or.inr rfl
  | bool b => exact Or.inr (by simpa using h)
  | num n => exact Or.inr (by simpa using h)
  | str s => exact Or.inr (by simpa using h)
  | arr l => exact Or.inr (by simpa using h)

/-- C3 counterexample: a string payload holding well-formed JSON whose top
level is a (truthy) array — `"[1]"` — drives the extraction block into
`parsed_metadata.get(...)` on a list, which raises `AttributeError`: an
uncontrolled error, neither a call context nor the ValidationError. -/
theorem metadata_stage_uncontrolled_on_json_array :
    metadataStage (.strPayload "[1]" (some (.arr [.num 1]))) = .error .attributeError
    ∧ ¬ ((∃ ctx, metadataStage (.strPayload "[1]" (some (.arr [.num 1]))) = .ok ctx)
          ∨ metadataStage (.strPayload "[1]" (some (.arr [.num 1]))) = .error .valueError) := by
  have hval : metadataStage (.strPayload "[1]" (some (.arr [.num 1]))) = .error .attributeError := rfl
  refine ⟨hval, ?_⟩
  simp [hval]

/-- C3 (amended): for every dispatch metadata payload whose parsed form is
a mapping, falsy, missing or unparseable — i.e. all payloads except a
string (or decodable bytes) holding well-formed JSON with a truthy
non-object top level — the metadata stage raises no uncontrolled error: it
returns a call context or raises the ValidationError, and it raises the
ValidationError exactly when `template_id`, `organization_id` or
`patient_id` is missing (falsy) after parsing. -/
theorem metadata_stage_error_is_exactly_validation
    (payload : MetadataPayload) (h : parseSafe payload = true) :
    ((∃ ctx, metadataStage payload = .ok ctx) ∨ metadataStage payload = .error .valueError)
    ∧ (metadataStage payload = .error .valueError ↔ extractedRequiredPresent payload = false) := by
  obtain ⟨⟨t, o, p, i⟩, he⟩ := extractIds_ok_of_not_truthy_nondict _ (parseSafe_spec payload h)
  unfold metadataStage extractedRequiredPresent
  rw [he]
  by_cases hreq : (jsonTruthy t && jsonTruthy o && jsonTruthy p) = true
  · simp [hreq]
  · simp [hreq]

/-- C3 witness: a structured mapping carrying the three identity fields is
in the amended claim's domain and yields a call context. -/
theorem metadata_stage_error_is_exactly_validation_witness :
    ((∃ ctx, metadataStage (.dictPayload [("template_id", .str "t1"),
        ("organization_id", .str "o1"), ("patient_id", .str "p1")]) = .ok ctx)
      ∨ metadataStage (.dictPayload [("template_id", .str "t1"),
          ("organization_id", .str "o1"), ("patient_id", .str "p1")]) = .error .valueError)
    ∧ (metadataStage (.dictPayload [("template_id", .str "t1"),
          ("organization_id", .str "o1"), ("patient_id", .str "p1")]) = .error .valueError
        ↔ extractedRequiredPresent (.dictPayload [("template_id", .str "t1"),
            ("organization_id", .str "o1"), ("patient_id", .str "p1")]) = false) :=
  metadata_stage_error_is_exactly_validation
    (.dictPayload [("template_id", .str "t1"), ("organization_id", .str "o1"),
      ("patient_id", .str "p1")]) rfl

/-- C7: when a required identity id is missing after parsing, the
entrypoint aborts with the ValidationError and its event trace is empty: no
enrichment fetch, no template fetch, no span, no voice-channel start, no
greeting and no record-store write has been issued — identity validation
precedes every network interaction of the session. -/
theorem missing_identity_aborts_before_any_fetch
    (env : Env) (payload : MetadataPayload) (h : requiredIdsMissing payload = true) :
    entrypointRun env payload = ([], some .valueError) := by
  have hstage : metadataStage payload = .error .valueError := by
    unfold requiredIdsMissing at h
    unfold metadataStage
    cases he : extractIds (parseStage payload) with
    | error e => rw [he] at h; simp at h
    | ok r =>
        obtain ⟨t, o, p, i⟩ := r
        rw [he] at h
        simp only [Bool.not_eq_true'] at h
        simp [h]
  unfold entrypointRun
  rw [hstage]

/-- C7 witness: a mapping payload with `patient_id` absent aborts the
sample session before any fetch. -/
theorem missing_identity_aborts_witness :
    entrypointRun sampleEnv
      (.dictPayload [("template_id", .str "t1"), ("organization_id", .str "o1")])
      = ([], some .valueError) :=
  missing_identity_aborts_before_any_fetch _ _ rfl

/-- C4: the enrichment stage's two results are independent — each name
depends only on its own lookup outcome — a failed (`exc`), absent
(`result none`) or empty (`result (some [])`) lookup is replaced by the
pre-configured default name, and no lookup outcome changes whether the
session aborts (no lookup error propagates past this stage). -/
theorem enrichment_isolated_and_defaulted :
    ∀ (p o p' o' : LookupOutcome),
      (enrichmentNames p o).1 = (enrichmentNames p o').1
      ∧ (enrichmentNames p o).2 = (enrichmentNames p' o).2
      ∧ (enrichmentNames .exc o).1 = .str DEFAULT_PATIENT_NAME
      ∧ (enrichmentNames (.result none) o).1 = .str DEFAULT_PATIENT_NAME
      ∧ (enrichmentNames (.result (some [])) o).1 = .str DEFAULT_PATIENT_NAME
      ∧ (enrichmentNames p .exc).2 = .str DEFAULT_ORGANIZATION_NAME
      ∧ (enrichmentNames p (.result none)).2 = .str DEFAULT_ORGANIZATION_NAME
      ∧ (enrichmentNames p (.result (some []))).2 = .str DEFAULT_ORGANIZATION_NAME
      ∧ (∀ (envr : Env) (payload : MetadataPayload),
          (entrypointRun { envr with patientOutcome := p, orgOutcome := o } payload).2
            = (entrypointRun envr payload).2) := by
  intro p o p' o'
  refine ⟨rfl, rfl, rfl, rfl, rfl, rfl, rfl, rfl, ?_⟩
  intro envr payload
  cases h : metadataStage payload <;> simp [entrypointRun, h, saveTranscriptRun]

/-- C5: a failed or empty remote template fetch (`None` or a falsy record)
makes the instruction compiler return exactly the fixed static fallback
script; the fallback is non-empty, and the instructions handed to the
conversational engine (`finalInstructions`) are non-empty for every
possible Stage-1 outcome. -/
theorem fallback_script_on_fetch_failure_and_nonempty_instructions :
    ∀ (patientData organizationData appointmentDetails : Option PyDict) (i : Option String),
      generateInstructionsFromApi none patientData organizationData appointmentDetails
        = .ok getFallbackInstructions
      ∧ generateInstructionsFromApi (some []) patientData organizationData appointmentDetails
        = .ok getFallbackInstructions
      ∧ getFallbackInstructions ≠ ""
      ∧ finalInstructions i ≠ "" := by
  intro patientData organizationData appointmentDetails i
  refine ⟨rfl, rfl, by decide, ?_⟩
  match i with
  | none => exact by decide
  | some s =>
      simp only [finalInstructions]
      split_ifs with h
      · exact by decide
      · exact h

/-- C6: when `intake_id` is absent (`None`, hence falsy), the shutdown
callback performs zero writes to the record store and completes without
raising, and — whenever the history step succeeded so the persistence block
runs at all — it logs the skip-persistence warning exactly once. -/
theorem no_store_write_without_intake_id :
    ∀ (spanOpened : Bool) (env : ShutdownEnv)
      (dbRaises dbReturns flattenOk traceUpdateOk spanEndOk : Bool),
      (saveTranscriptRun spanOpened env .null).1.countP isDbWrite = 0
      ∧ (saveTranscriptRun spanOpened env .null).2 = none
      ∧ (saveTranscriptRun spanOpened
          ⟨true, dbRaises, dbReturns, flattenOk, traceUpdateOk, spanEndOk⟩ .null).1.countP
            isWarnSkipPersist = 1 := by
  intro spanOpened env dbRaises dbReturns flattenOk traceUpdateOk spanEndOk
  refine ⟨?_, rfl, ?_⟩ <;>
    · simp only [saveTranscriptRun]
      split_ifs <;> simp_all [isDbWrite, isWarnSkipPersist, jsonTruthy]

/-- C8 counterexample: with the organization phone present, the dispatch
created and the trunk id valid, a failure of `create_sip_participant` — the
very step that engages the telephony leg — is swallowed by `make_call`'s
logging-only `except`, and the trigger API still answers 202 Accepted
instead of the gateway error. -/
theorem sip_failure_still_returns_success :
    schedule_intake_call
        ⟨some "+15550001234", .ok (some "disp-1"), some "ST_trunk1", .error (), "abc12345"⟩
        "+19712656795" "t-1" "o-1" "p-1" "i-1" none
      = .accepted "queued" "intake-abc12345" (some "disp-1")
          (makeCallMetadata "i-1" "t-1" "o-1" "p-1" "+19712656795" none) "intake-agent"
    ∧ schedule_intake_call
        ⟨some "+15550001234", .ok (some "disp-1"), some "ST_trunk1", .error (), "abc12345"⟩
        "+19712656795" "t-1" "o-1" "p-1" "i-1" none
      ≠ .gatewayError 502 := by
  have h1 : schedule_intake_call
      ⟨some "+15550001234", .ok (some "disp-1"), some "ST_trunk1", .error (), "abc12345"⟩
      "+19712656795" "t-1" "o-1" "p-1" "i-1" none
    = .accepted "queued" "intake-abc12345" (some "disp-1")
        (makeCallMetadata "i-1" "t-1" "o-1" "p-1" "+19712656795" none) "intake-agent" := rfl
  refine ⟨h1, fun hcontr => ?_⟩
  rw [h1] at hcontr
  exact ApiResponse.noConfusion hcontr

/-- C8 (amended): a synchronous failure of the caller-id lookup, of the
remote job (dispatch) creation or of the trunk-id validation maps to the
502 gateway-error response, and on success the 202 response carries
`room_name`, `dispatch_id`, `metadata` and `agent_name`; a failure of the
SIP-participant creation, however, is logged and swallowed, so the response
is entirely independent of the telephony-leg outcome. -/
theorem dispatch_failure_maps_to_gateway_error :
    ∀ (env : DispatchEnv) (phone t o p i : String) (g : Option String),
      schedule_intake_call env phone t o p i g =
        (if makeCallFails env then .gatewayError 502
         else .accepted "queued" ("intake-" ++ env.sessionId) (dispatchIdOf env)
                (makeCallMetadata i t o p phone g) "intake-agent")
      ∧ (∀ s1 s2 : Except Unit Unit,
          schedule_intake_call { env with sipOutcome := s1 } phone t o p i g
            = schedule_intake_call { env with sipOutcome := s2 } phone t o p i g) := by
  intro env phone t o p i g
  obtain ⟨op, dout, trunk, sip, sid⟩ := env
  constructor
  · cases op <;> cases dout <;> cases sip <;>
      simp [schedule_intake_call, make_call, makeCallFails, orgPhoneMissing, dispatchIdOf] <;>
        split_ifs <;> simp_all
  · intro s1 s2
    cases op <;> cases dout <;> cases s1 <;> cases s2 <;>
      simp [schedule_intake_call, make_call]

/-- C1: the skip-reintroduction behaviour cannot occur.  `entrypoint`
passes `prefilled_greeting=` to `generate_instructions_from_api`, whose
parameter list (`template_id`, `organization_id`, `patient_id`,
`appointment_details`) does not include it and which takes no `**kwargs`,
so every Stage-1 call raises `TypeError` before the function body (and any
template fetch) runs; the surrounding `except` swallows it, leaving
`instructions = None`, and the session is always started with exactly the
static fallback script — no directive of any kind is appended, whatever the
environment or the metadata. -/
theorem prefilled_greeting_keyword_always_raises_type_error :
    ∀ (env : Env) (t o p : Json) (g : String) (payload : MetadataPayload),
      callGenerateInstructionsKw
          [("template_id", t), ("organization_id", o), ("patient_id", p),
           ("prefilled_greeting", .str g)]
          env.templateData env.patientData env.organizationData none = .error .typeError
      ∧ ((entrypointRun env payload).1.all (fun e =>
            match e with
            | .sessionStart s => s == getFallbackInstructions
            | _ => true)) = true := by
  intro env t o p g payload
  refine ⟨callGenerateInstructionsKw_prefilled t o p g _ _ _ _, ?_⟩
  cases hms : metadataStage payload with
  | error e => simp [entrypointRun, hms]
  | ok ctx =>
      simp only [entrypointRun, hms]
      simp only [callGenerateInstructionsKw_prefilled]
      simp only [finalInstructions, onEnterEvents, saveTranscriptRun]
      simp [List.all_append]
      split_ifs <;> simp <;> aesop

/-- Two mapping payloads that agree outside `prefilled_greeting` extract the
same four ids. -/
lemma dict_extract_agree (f1 f2 : PyDict)
    (h : ∀ k, k ≠ "prefilled_greeting" → pyGet f1 k = pyGet f2 k) :
    extractIds (parseStage (.dictPayload f1)) = extractIds (parseStage (.dictPayload f2)) := by
  have ht := h "template_id" (by decide)
  have ho := h "organization_id" (by decide)
  have hp := h "patient_id" (by decide)
  have hi := h "intake_id" (by decide)
  have hfull : ∀ (f : PyDict), f.isEmpty = false →
      extractIds (parseStage (.dictPayload f)) =
        .ok (pyGet f "template_id", pyGet f "organization_id",
             pyGet f "patient_id", pyGet f "intake_id") := by
    intro f hf
    simp [parseStage, extractIds, jsonTruthy, hf]
  by_cases h1 : f1.isEmpty <;> by_cases h2 : f2.isEmpty
  · obtain rfl : f1 = [] := List.isEmpty_iff.mp h1
    obtain rfl : f2 = [] := List.isEmpty_iff.mp h2
    rfl
  · obtain rfl : f1 = [] := List.isEmpty_iff.mp h1
    replace h2 : f2.isEmpty = false := by simpa using h2
    rw [hfull f2 h2, ← ht, ← ho, ← hp, ← hi]
    rfl
  · obtain rfl : f2 = [] := List.isEmpty_iff.mp h2
    replace h1 : f1.isEmpty = false := by simpa using h1
    rw [hfull f1 h1, ht, ho, hp, hi]
    rfl
  · replace h1 : f1.isEmpty = false := by simpa using h1
    replace h2 : f2.isEmpty = false := by simpa using h2
    rw [hfull f1 h1, hfull f2 h2, ht, ho, hp, hi]

/-- C10: the entrypoint's behaviour is invariant under the
`prefilled_greeting` field of the dispatch metadata — for any two mapping
payloads that agree on every other key, the session run (its whole event
trace, including the ids fetched and the instructions compiled, and its
abort behaviour) is identical, because the consumer never reads that
field. -/
theorem entrypoint_invariant_to_prefilled_greeting
    (env : Env) (f1 f2 : PyDict)
    (h : ∀ k, k ≠ "prefilled_greeting" → pyGet f1 k = pyGet f2 k) :
    entrypointRun env (.dictPayload f1) = entrypointRun env (.dictPayload f2) := by
  have hm : metadataStage (.dictPayload f1) = metadataStage (.dictPayload f2) := by
    unfold metadataStage
    rw [dict_extract_agree f1 f2 h]
  unfold entrypointRun
  rw [hm]

/-- C10 witness: the payload written by `make_call` with a greeting, and
the same payload without it, drive the sample session identically. -/
theorem entrypoint_invariant_to_prefilled_greeting_witness :
    entrypointRun sampleEnv (.dictPayload
        [("intake_id", .str "i1"), ("template_id", .str "t1"),
         ("organization_id", .str "o1"), ("patient_id", .str "p1"),
         ("phone_number", .str "+19712656795"),
         ("prefilled_greeting", .str "Hello there, this is ZScribe Intake Coordinator calling from our office. Is this a good time to talk for a few minutes?")])
      = entrypointRun sampleEnv (.dictPayload
        [("intake_id", .str "i1"), ("template_id", .str "t1"),
         ("organization_id", .str "o1"), ("patient_id", .str "p1"),
         ("phone_number", .str "+19712656795")]) :=
  entrypoint_invariant_to_prefilled_greeting _ _ _ (by
    intro k hk
    simp [pyGet, pyGetD, hk])

/-- The shutdown callback never speaks. -/
lemma saveTranscriptRun_no_say (s : String) (so : Bool) (senv : ShutdownEnv) (iid : Json) :
    Event.say s ∉ (saveTranscriptRun so senv iid).1 := by
  unfold saveTranscriptRun
  split_ifs <;> simp

/-- The chosen greeting template is one of the four fixed variations. -/
lemma greetingAt_mem (i : Fin 4) : greetingAt i ∈ GREETING_VARIATIONS := by
  fin_cases i <;> simp [greetingAt, GREETING_VARIATIONS]

/-- C9: every greeting spoken in a session run is one of the fixed
templates with `{agent}`, `{patient}` and `{organization}` substituted by
the session's agent name and the enrichment-derived (hence defaulted when
enrichment failed) patient and organization names, and the fixed 0.5 s
pause immediately precedes the speech in the event trace. -/
theorem greeting_from_fixed_templates_after_pause
    (env : Env) (payload : MetadataPayload) (s : String)
    (h : Event.say s ∈ (entrypointRun env payload).1) :
    (∃ tpl ∈ GREETING_VARIATIONS,
        s = formatGreeting tpl (pyOr .null (.str AGENT_NAME))
              (pyOr (enrichmentNames env.patientOutcome env.orgOutcome).1
                (.str DEFAULT_PATIENT_NAME))
              (pyOr (enrichmentNames env.patientOutcome env.orgOutcome).2
                (.str DEFAULT_ORGANIZATION_NAME)))
    ∧ ∃ pre post,
        (entrypointRun env payload).1 = pre ++ Event.sleep 500 :: Event.say s :: post := by
  cases hms : metadataStage payload with
  | error e => simp [entrypointRun, hms] at h
  | ok ctx =>
      simp only [entrypointRun, hms, callGenerateInstructionsKw_prefilled,
        finalInstructions, onEnterEvents] at h ⊢
      rcases Bool.eq_false_or_eq_true (env.langfuseOk && env.spanStartOk) with hsp | hsp
      · simp [hsp, saveTranscriptRun_no_say] at h
        subst h
        refine ⟨⟨greetingAt env.enterChoice, greetingAt_mem _, rfl⟩, ?_⟩
        refine ⟨[Event.fetchPatient ctx.patient_id, Event.fetchOrganization ctx.organization_id,
                 Event.spanOpen, Event.sessionStart getFallbackInstructions],
                (saveTranscriptRun true env.shutdown ctx.intake_id).1, ?_⟩
        simp [hsp]
      · simp [hsp, saveTranscriptRun_no_say] at h
        subst h
        refine ⟨⟨greetingAt env.enterChoice, greetingAt_mem _, rfl⟩, ?_⟩
        refine ⟨[Event.fetchPatient ctx.patient_id, Event.fetchOrganization ctx.organization_id,
                 Event.sessionStart getFallbackInstructions],
                (saveTranscriptRun false env.shutdown ctx.intake_id).1, ?_⟩
        simp [hsp]

/-- C9 witness: the sample session (both lookups failed, tracing off)
speaks the first template with the default names, right after the pause. -/
theorem greeting_from_fixed_templates_after_pause_witness :
    (∃ tpl ∈ GREETING_VARIATIONS,
        sampleGreeting = formatGreeting tpl (pyOr .null (.str AGENT_NAME))
          (pyOr (enrichmentNames sampleEnv.patientOutcome sampleEnv.orgOutcome).1
            (.str DEFAULT_PATIENT_NAME))
          (pyOr (enrichmentNames sampleEnv.patientOutcome sampleEnv.orgOutcome).2
            (.str DEFAULT_ORGANIZATION_NAME)))
    ∧ ∃ pre post, (entrypointRun sampleEnv samplePayloadFull).1
        = pre ++ Event.sleep 500 :: Event.say sampleGreeting :: post :=
  greeting_from_fixed_templates_after_pause sampleEnv samplePayloadFull sampleGreeting (by
    rw [show (entrypointRun sampleEnv samplePayloadFull).1
        = [Event.fetchPatient (.str "p1"), Event.fetchOrganization (.str "o1"),
           Event.sessionStart getFallbackInstructions, Event.sleep 500,
           Event.say sampleGreeting, Event.dbWrite (.str "i1")] from rfl]
    simp)

end ZScribe
